import Mathlib

/-!
Verification of `MR::Math::QuadraticLineSearch` (math/quadratic_line_search.h).

The C++ class is generic over a floating-point-like `ValueType`; we model the
value type by the exact rationals `ℚ` (the idealised exact-arithmetic reading
of the source).  A cost functor is modelled as a function `ℚ → Option ℚ`,
where `none` stands for a non-finite result; the only use the algorithm makes
of non-finiteness is the `std::isfinite` test on the candidate evaluation
(line 144).  The C++ `NAN` return value is modelled as `none : Option ℚ`.

Divisions in the source are IEEE divisions.  On every concrete trace examined
below all denominators are nonzero, where rational division agrees with the
exact-arithmetic reading of the source.  The three initial cost evaluations
are unguarded in the source (its TODO comment at line 119); a run in which one
of them is non-finite would proceed by IEEE NaN propagation, which is outside
this rational model, so such runs are merely flagged with a dedicated exit
marker `Exit.unmodeled` and the theorems below do not assert anything
about their value or status.
-/

namespace QuadraticLineSearch

/-- The status enumeration `enum return_t` (source line 84). -/
inductive return_t where
  | SUCCESS
  | EXECUTING
  | OUTSIDE_BOUNDS
  | NONCONVEX
  | NONCONVERGING
deriving DecidableEq, Repr

/-- The private data members of the class other than the mutable `status`
(source lines 287-291).  `message` only controls whether a progress bar is
constructed (line 115); the progress bar has no effect on the computed
values, so `message` is carried but never read by the search. -/
structure Config where
  init_lower : ℚ
  init_mid : ℚ
  init_upper : ℚ
  value_tolerance : ℚ
  function_tolerance : ℚ
  exit_outside_bounds : Bool
  max_iters : ℕ
  message : String
deriving DecidableEq, Repr

/-- The full object state: the configuration plus the `mutable return_t status`
member (source line 293), the only state written by an invocation. -/
structure Optimizer extends Config where
  status : return_t
deriving DecidableEq, Repr

/-- The constructor `QuadraticLineSearch (lower_bound, upper_bound)`
(source lines 86-94). -/
def construct (lower_bound upper_bound : ℚ) : Optimizer :=
  { init_lower := lower_bound
    init_mid := (1/2) * (lower_bound + upper_bound)
    init_upper := upper_bound
    value_tolerance := (1/1000) * (upper_bound - lower_bound)
    function_tolerance := 0
    exit_outside_bounds := true
    max_iters := 50
    message := ""
    status := return_t.SUCCESS }

/-- `set_lower_bound` (source line 97). -/
def set_lower_bound (o : Optimizer) (i : ℚ) : Optimizer := { o with init_lower := i }

/-- `set_init_estimate` (source line 98). -/
def set_init_estimate (o : Optimizer) (i : ℚ) : Optimizer := { o with init_mid := i }

/-- `set_upper_bound` (source line 99). -/
def set_upper_bound (o : Optimizer) (i : ℚ) : Optimizer := { o with init_upper := i }

/-- `set_value_tolerance` (source line 100). -/
def set_value_tolerance (o : Optimizer) (i : ℚ) : Optimizer := { o with value_tolerance := i }

/-- `set_function_tolerance` (source line 101). -/
def set_function_tolerance (o : Optimizer) (i : ℚ) : Optimizer := { o with function_tolerance := i }

/-- `set_exit_if_outside_bounds` (source line 102). -/
def set_exit_if_outside_bounds (o : Optimizer) (i : Bool) : Optimizer := { o with exit_outside_bounds := i }

/-- `set_max_iterations` (source line 103). -/
def set_max_iterations (o : Optimizer) (i : ℕ) : Optimizer := { o with max_iters := i }

/-- `set_message` (source line 104). -/
def set_message (o : Optimizer) (i : String) : Optimizer := { o with message := i }

/-- `get_status` (source line 106). -/
def get_status (o : Optimizer) : return_t := o.status

/-- The bracket state: the local variables `l, m, u` and `fl, fm, fu` of
`operator()` (source lines 117-118). -/
structure Bracket where
  l : ℚ
  m : ℚ
  u : ℚ
  fl : ℚ
  fm : ℚ
  fu : ℚ
deriving DecidableEq, Repr

/-- The chord value `fl + ((fu-fl)*(m-l)/(u-l))` against which `fm` is tested
in the convexity check (source line 129). -/
def chordAtMid (b : Bracket) : ℚ :=
  b.fl + ((b.fu - b.fl) * (b.m - b.l) / (b.u - b.l))

/-- The secant slope `sl = (fm-fl) / (m-l)` (source line 138). -/
def slopeLower (b : Bracket) : ℚ := (b.fm - b.fl) / (b.m - b.l)

/-- The secant slope `su = (fu-fm) / (u-m)` (source line 139). -/
def slopeUpper (b : Bracket) : ℚ := (b.fu - b.fm) / (b.u - b.m)

/-- The interpolated candidate
`n = (0.5*(l+m)) - ((sl*(u-l)) / (2.0*(su-sl)))` (source line 141). -/
def candidate (b : Bracket) : ℚ :=
  ((1/2) * (b.l + b.m)) - ((slopeLower b * (b.u - b.l)) / (2 * (slopeUpper b - slopeLower b)))

/-- Outcome of the five-way bracket update on the candidate `n`
(source lines 147-179). -/
inductive UpdateResult where
  /-- `n < l` with `exit_outside_bounds` set: `status = OUTSIDE_BOUNDS; return NAN`
  (source lines 148-151). -/
  | outsideLow
  /-- `n == m`: `return n` with no status write (source lines 162-163). -/
  | exactMid (n : ℚ)
  /-- `n ≥ u` with `exit_outside_bounds` set: `status = OUTSIDE_BOUNDS; return NAN`
  (source lines 172-175). -/
  | outsideHigh
  /-- The loop continues with an updated bracket. -/
  | cont (b : Bracket)
deriving DecidableEq, Repr

/-- The five-way bracket update of `operator()` (source lines 147-179),
with the candidate `n` and its cost `fn` already computed. -/
def updateBracket (eob : Bool) (b : Bracket) (n fn : ℚ) : UpdateResult :=
  if n < b.l then
    if eob then UpdateResult.outsideLow
    else UpdateResult.cont ⟨n, b.l, b.m, fn, b.fl, b.fm⟩
  else if n < b.m then
    if fn > b.fm then UpdateResult.cont ⟨n, b.m, b.u, fn, b.fm, b.fu⟩
    else UpdateResult.cont ⟨b.l, n, b.m, b.fl, fn, b.fm⟩
  else if n = b.m then UpdateResult.exactMid n
  else if n < b.u then
    if fn > b.fm then UpdateResult.cont ⟨b.l, b.m, n, b.fl, b.fm, fn⟩
    else UpdateResult.cont ⟨b.m, n, b.u, b.fm, fn, b.fu⟩
  else
    if eob then UpdateResult.outsideHigh
    else UpdateResult.cont ⟨b.m, b.u, n, b.fm, b.fu, fn⟩

/-- Which return path an invocation took. -/
inductive Exit where
  /-- A `status = SUCCESS; return m` path (source lines 131-132 or 185-186). -/
  | success
  /-- `status = NONCONVEX; return NAN` (source lines 134-135). -/
  | nonconvex
  /-- `status = OUTSIDE_BOUNDS; return NAN` (source lines 149-150 or 173-174). -/
  | outside
  /-- The early return `if (!std::isfinite(fn)) return m` (source lines 144-145). -/
  | nonfinite
  /-- The `n == m` return (source lines 162-163). -/
  | exactMid
  /-- The loop exhausted `max_iters`: `status = NONCONVERGING; return NAN`
  (source lines 191-192). -/
  | exhausted
  /-- A non-finite evaluation from which the source would proceed by IEEE NaN
  propagation: one of the three unguarded initial evaluations (source TODO,
  line 119), or, in `verbose` only, a mid-loop evaluation (the `verbose` body
  has no `std::isfinite` guard).  Such runs are outside this rational model
  and no theorem below asserts anything about their value or status. -/
  | unmodeled
deriving DecidableEq, Repr

/-- The observable outcome of one invocation, instrumented with the return
path taken, the number of executed loop-body entries, the bracket state held
at the return, and the list of abscissas at which the functor was called. -/
structure RunResult where
  value : Option ℚ
  status : return_t
  exit : Exit
  itersUsed : ℕ
  finalB : Bracket
  evals : List ℚ
deriving DecidableEq, Repr

/-- The `while (iters++ < max_iters)` loop of `operator()` (source lines
122-189), as structural recursion on the remaining iteration budget.
`used` counts executed loop-body entries and `pts` accumulates the abscissas
passed to the functor so far.  The optional progress bar (lines 181-182) has
no effect on any computed value and is not modelled. -/
def loop (cfg : Config) (f : ℚ → Option ℚ) :
    ℕ → ℕ → List ℚ → Bracket → RunResult
  | 0, used, pts, b =>
      ⟨none, return_t.NONCONVERGING, Exit.exhausted, used, b, pts⟩
  | fuel + 1, used, pts, b =>
      if b.fm > chordAtMid b then
        if min (b.m - b.l) (b.u - b.m) < cfg.value_tolerance ∨
            |(b.fu - b.fl) / ((1/2) * (b.fu + b.fl))| < cfg.function_tolerance then
          ⟨some b.m, return_t.SUCCESS, Exit.success, used + 1, b, pts⟩
        else
          ⟨none, return_t.NONCONVEX, Exit.nonconvex, used + 1, b, pts⟩
      else
        match f (candidate b) with
        | none =>
            ⟨some b.m, return_t.EXECUTING, Exit.nonfinite, used + 1, b,
              pts ++ [candidate b]⟩
        | some fn =>
            match updateBracket cfg.exit_outside_bounds b (candidate b) fn with
            | UpdateResult.outsideLow =>
                ⟨none, return_t.OUTSIDE_BOUNDS, Exit.outside, used + 1, b,
                  pts ++ [candidate b]⟩
            | UpdateResult.exactMid n =>
                ⟨some n, return_t.EXECUTING, Exit.exactMid, used + 1, b,
                  pts ++ [candidate b]⟩
            | UpdateResult.outsideHigh =>
                ⟨none, return_t.OUTSIDE_BOUNDS, Exit.outside, used + 1, b,
                  pts ++ [candidate b]⟩
            | UpdateResult.cont b2 =>
                if b2.u - b2.l < cfg.value_tolerance then
                  ⟨some b2.m, return_t.SUCCESS, Exit.success, used + 1, b2,
                    pts ++ [candidate b]⟩
                else
                  loop cfg f fuel (used + 1) (pts ++ [candidate b]) b2

/-- The body of `operator()` (source lines 109-194): set up the bracket from
the configured bounds, evaluate the functor at the three initial abscissas,
and run the loop.  `status` is set to `EXECUTING` at entry (line 113); the
status carried by the result is the value of the member at return. -/
def callAux (cfg : Config) (f : ℚ → Option ℚ) : RunResult :=
  match f cfg.init_lower, f cfg.init_mid, f cfg.init_upper with
  | some fl, some fm, some fu =>
      loop cfg f cfg.max_iters 0 [cfg.init_lower, cfg.init_mid, cfg.init_upper]
        ⟨cfg.init_lower, cfg.init_mid, cfg.init_upper, fl, fm, fu⟩
  | _, _, _ =>
      ⟨none, return_t.EXECUTING, Exit.unmodeled, 0, ⟨0, 0, 0, 0, 0, 0⟩,
        [cfg.init_lower, cfg.init_mid, cfg.init_upper]⟩

/-- `operator() (Functor&) const` (source lines 109-194) as a state
transformer: it reads only the configuration, writes only `status`, and
returns the estimate (`none` standing for the C++ `NAN`). -/
def call (o : Optimizer) (f : ℚ → Option ℚ) : Optimizer × Option ℚ :=
  let r := callAux o.toConfig f
  ({ o with status := r.status }, r.value)

/-- The `while (iters++ < max_iters)` loop of `verbose` (source lines
212-278).  It differs from `loop` in two places: the convergence test inside
the convexity branch checks only the bracket widths, without the
function-tolerance disjunct (source line 215 against line 130), and there is
no `std::isfinite` guard on the candidate evaluation (nothing between source
lines 230 and 234), so a non-finite `fn` would flow on by NaN propagation;
that case is flagged `Exit.unmodeled` here.  The `std::cerr` trace output has
no effect on any computed value and is not modelled. -/
def vloop (cfg : Config) (f : ℚ → Option ℚ) :
    ℕ → ℕ → List ℚ → Bracket → RunResult
  | 0, used, pts, b =>
      ⟨none, return_t.NONCONVERGING, Exit.exhausted, used, b, pts⟩
  | fuel + 1, used, pts, b =>
      if b.fm > chordAtMid b then
        if min (b.m - b.l) (b.u - b.m) < cfg.value_tolerance then
          ⟨some b.m, return_t.SUCCESS, Exit.success, used + 1, b, pts⟩
        else
          ⟨none, return_t.NONCONVEX, Exit.nonconvex, used + 1, b, pts⟩
      else
        match f (candidate b) with
        | none =>
            ⟨none, return_t.EXECUTING, Exit.unmodeled, used + 1, b,
              pts ++ [candidate b]⟩
        | some fn =>
            match updateBracket cfg.exit_outside_bounds b (candidate b) fn with
            | UpdateResult.outsideLow =>
                ⟨none, return_t.OUTSIDE_BOUNDS, Exit.outside, used + 1, b,
                  pts ++ [candidate b]⟩
            | UpdateResult.exactMid n =>
                ⟨some n, return_t.EXECUTING, Exit.exactMid, used + 1, b,
                  pts ++ [candidate b]⟩
            | UpdateResult.outsideHigh =>
                ⟨none, return_t.OUTSIDE_BOUNDS, Exit.outside, used + 1, b,
                  pts ++ [candidate b]⟩
            | UpdateResult.cont b2 =>
                if b2.u - b2.l < cfg.value_tolerance then
                  ⟨some b2.m, return_t.SUCCESS, Exit.success, used + 1, b2,
                    pts ++ [candidate b]⟩
                else
                  vloop cfg f fuel (used + 1) (pts ++ [candidate b]) b2

/-- The body of `verbose (Functor&) const` (source lines 198-283). -/
def verboseAux (cfg : Config) (f : ℚ → Option ℚ) : RunResult :=
  match f cfg.init_lower, f cfg.init_mid, f cfg.init_upper with
  | some fl, some fm, some fu =>
      vloop cfg f cfg.max_iters 0 [cfg.init_lower, cfg.init_mid, cfg.init_upper]
        ⟨cfg.init_lower, cfg.init_mid, cfg.init_upper, fl, fm, fu⟩
  | _, _, _ =>
      ⟨none, return_t.EXECUTING, Exit.unmodeled, 0, ⟨0, 0, 0, 0, 0, 0⟩,
        [cfg.init_lower, cfg.init_mid, cfg.init_upper]⟩

/-- `verbose (Functor&) const` (source lines 198-283) as a state
transformer, analogous to `call`. -/
def verbose (o : Optimizer) (f : ℚ → Option ℚ) : Optimizer × Option ℚ :=
  let r := verboseAux o.toConfig f
  ({ o with status := r.status }, r.value)

/-!
Definitions written from the specification's words (spec section 4, steps 2
and 3), to be compared with the source-derived `candidate` and
`updateBracket`.
-/

/-- From the spec's words: the secant slope `sl = (fm-fl)/(m-l)`. -/
def slopeLowerSpec (b : Bracket) : ℚ := (b.fm - b.fl) / (b.m - b.l)

/-- From the spec's words: the secant slope `su = (fu-fm)/(u-m)`. -/
def slopeUpperSpec (b : Bracket) : ℚ := (b.fu - b.fm) / (b.u - b.m)

/-- From the spec's words: the interpolated candidate point
`n = 0.5*(l+m) - sl*(u-l) / (2*(su-sl))`. -/
def candidateSpec (b : Bracket) : ℚ :=
  (1/2) * (b.l + b.m) - (slopeLowerSpec b * (b.u - b.l)) / (2 * (slopeUpperSpec b - slopeLowerSpec b))

/-- From the spec's words: the bracket update by position of `n` relative to
`l, m, u`, as five mutually exclusive cases: `n < l` widens downward (or
fails per the flag); `l ≤ n < m` sets `l←n` when `fn > fm` and otherwise
`u←m, m←n`; `n == m` returns `n` immediately; `m < n < u` sets `u←n` when
`fn > fm` and otherwise `l←m, m←n`; `n ≥ u` widens upward (or fails per the
flag). -/
def updateBracketSpec (eob : Bool) (b : Bracket) (n fn : ℚ) : UpdateResult :=
  if n < b.l then
    if eob then UpdateResult.outsideLow
    else UpdateResult.cont ⟨n, b.l, b.m, fn, b.fl, b.fm⟩
  else if b.l ≤ n ∧ n < b.m then
    if fn > b.fm then UpdateResult.cont ⟨n, b.m, b.u, fn, b.fm, b.fu⟩
    else UpdateResult.cont ⟨b.l, n, b.m, b.fl, fn, b.fm⟩
  else if n = b.m then UpdateResult.exactMid n
  else if b.m < n ∧ n < b.u then
    if fn > b.fm then UpdateResult.cont ⟨b.l, b.m, n, b.fl, b.fm, fn⟩
    else UpdateResult.cont ⟨b.m, n, b.u, b.fm, fn, b.fu⟩
  else
    if eob then UpdateResult.outsideHigh
    else UpdateResult.cont ⟨b.m, b.u, n, b.fm, b.fu, fn⟩

/-!
Concrete cost functions and configurations used by the concrete scenarios.
-/

/-- The convex cost function `f(x) = (x-2)^2` of the spec's first concrete
scenario, finite everywhere. -/
def parabolaCost (x : ℚ) : Option ℚ := some ((x - 2) ^ 2)

/-- The concave cost function `f(x) = -(x-2)^2` of the spec's second concrete
scenario. -/
def concaveCost (x : ℚ) : Option ℚ := some (-((x - 2) ^ 2))

/-- The convex cost function `f(x) = x^2`. -/
def squareCost (x : ℚ) : Option ℚ := some (x ^ 2)

/-- A cost function with a dip at `x = 1`: `f(1) = -1`, `f(x) = 0` elsewhere. -/
def dipCost (x : ℚ) : Option ℚ := some (if x = 1 then -1 else 0)

/-- A cost function through `(0, 1)`, `(1, 10)` and `(4, 11/10)`: its sampled
shape violates the chord test at the midpoint with a small relative chord
difference. -/
def bumpCost (x : ℚ) : Option ℚ :=
  some (if x = 0 then 1 else if x = 1 then 10 else 11/10)

/-- `f(x) = (x-2)^2` except that the evaluation at `x = 2` is non-finite. -/
def puncturedCost (x : ℚ) : Option ℚ :=
  if x = 2 then none else some ((x - 2) ^ 2)

/-- The optimizer of the spec's concrete scenarios: bounds `(0, 4)`,
initial estimate `1`, default tolerances and iteration limit. -/
def scenarioOpt : Optimizer := set_init_estimate (construct 0 4) 1

/-! Helper lemmas about the loop, shared by the claim theorems below. -/

/-- The loop executes at most `fuel` further loop-body entries. -/
theorem loop_itersUsed_le (cfg : Config) (f : ℚ → Option ℚ) :
    ∀ fuel used pts b, (loop cfg f fuel used pts b).itersUsed ≤ used + fuel := by
  intro fuel
  induction fuel with
  | zero =>
      intro used pts b
      dsimp only [loop]
      omega
  | succ k ih =>
      intro used pts b
      rw [loop]
      split
      · split <;> (dsimp only; omega)
      · split
        · dsimp only; omega
        · split
          · dsimp only; omega
          · dsimp only; omega
          · dsimp only; omega
          · rename_i b2 _
            split
            · dsimp only; omega
            · exact le_trans (ih (used + 1) _ b2) (by omega)

/-- The loop evaluates the functor at most `fuel` further times. -/
theorem loop_evals_length (cfg : Config) (f : ℚ → Option ℚ) :
    ∀ fuel used pts b,
      (loop cfg f fuel used pts b).evals.length ≤ pts.length + fuel := by
  intro fuel
  induction fuel with
  | zero =>
      intro used pts b
      dsimp only [loop]
      omega
  | succ k ih =>
      intro used pts b
      rw [loop]
      split
      · split <;> (dsimp only; omega)
      · split
        · dsimp only; simp only [List.length_append, List.length_cons, List.length_nil]; omega
        · split
          · dsimp only; simp only [List.length_append, List.length_cons, List.length_nil]; omega
          · dsimp only; simp only [List.length_append, List.length_cons, List.length_nil]; omega
          · dsimp only; simp only [List.length_append, List.length_cons, List.length_nil]; omega
          · rename_i b2 _
            split
            · dsimp only; simp only [List.length_append, List.length_cons, List.length_nil]; omega
            · refine le_trans (ih (used + 1) (pts ++ [candidate b]) b2) ?h
              simp only [List.length_append, List.length_cons, List.length_nil]
              omega

/-- The loop never produces the `unmodeled` marker. -/
theorem loop_exit_ne_unmodeled (cfg : Config) (f : ℚ → Option ℚ) :
    ∀ fuel used pts b, (loop cfg f fuel used pts b).exit ≠ Exit.unmodeled := by
  intro fuel
  induction fuel with
  | zero =>
      intro used pts b h
      exact Exit.noConfusion h
  | succ k ih =>
      intro used pts b
      rw [loop]
      split
      · split <;> (intro h; exact Exit.noConfusion h)
      · split
        · intro h; exact Exit.noConfusion h
        · split
          · intro h; exact Exit.noConfusion h
          · intro h; exact Exit.noConfusion h
          · intro h; exact Exit.noConfusion h
          · rename_i b2 _
            split
            · intro h; exact Exit.noConfusion h
            · exact ih (used + 1) _ b2

/-- The loop's result status is `EXECUTING` exactly on the two early-exit
paths: the non-finite candidate evaluation and the exact `n == m` match. -/
theorem loop_status_executing_iff (cfg : Config) (f : ℚ → Option ℚ) :
    ∀ fuel used pts b,
      ((loop cfg f fuel used pts b).status = return_t.EXECUTING ↔
        (loop cfg f fuel used pts b).exit = Exit.nonfinite ∨
        (loop cfg f fuel used pts b).exit = Exit.exactMid) := by
  intro fuel
  induction fuel with
  | zero =>
      intro used pts b
      dsimp only [loop]
      constructor
      · intro h; exact absurd h (by intro hh; exact return_t.noConfusion hh)
      · intro h
        rcases h with h | h <;> exact Exit.noConfusion h
  | succ k ih =>
      intro used pts b
      rw [loop]
      split
      · split <;>
          (dsimp only
           constructor
           · intro h; exact absurd h (by intro hh; exact return_t.noConfusion hh)
           · intro h; rcases h with h | h <;> exact Exit.noConfusion h)
      · split
        · dsimp only
          exact ⟨fun _ => Or.inl rfl, fun _ => rfl⟩
        · split
          · dsimp only
            constructor
            · intro h; exact absurd h (by intro hh; exact return_t.noConfusion hh)
            · intro h; rcases h with h | h <;> exact Exit.noConfusion h
          · dsimp only
            exact ⟨fun _ => Or.inr rfl, fun _ => rfl⟩
          · dsimp only
            constructor
            · intro h; exact absurd h (by intro hh; exact return_t.noConfusion hh)
            · intro h; rcases h with h | h <;> exact Exit.noConfusion h
          · rename_i b2 _
            split
            · dsimp only
              constructor
              · intro h; exact absurd h (by intro hh; exact return_t.noConfusion hh)
              · intro h; rcases h with h | h <;> exact Exit.noConfusion h
            · exact ih (used + 1) _ b2

/-- On exhaustion the loop returns the sentinel with status `NONCONVERGING`. -/
theorem loop_exhausted_result (cfg : Config) (f : ℚ → Option ℚ) :
    ∀ fuel used pts b,
      (loop cfg f fuel used pts b).exit = Exit.exhausted →
      (loop cfg f fuel used pts b).status = return_t.NONCONVERGING ∧
      (loop cfg f fuel used pts b).value = none := by
  intro fuel
  induction fuel with
  | zero =>
      intro used pts b _
      exact ⟨rfl, rfl⟩
  | succ k ih =>
      intro used pts b
      rw [loop]
      split
      · split <;> (intro h; exact absurd h (by intro hh; exact Exit.noConfusion hh))
      · split
        · intro h; exact absurd h (by intro hh; exact Exit.noConfusion hh)
        · split
          · intro h; exact absurd h (by intro hh; exact Exit.noConfusion hh)
          · intro h; exact absurd h (by intro hh; exact Exit.noConfusion hh)
          · intro h; exact absurd h (by intro hh; exact Exit.noConfusion hh)
          · rename_i b2 _
            split
            · intro h; exact absurd h (by intro hh; exact Exit.noConfusion hh)
            · exact ih (used + 1) _ b2

/-- On the non-finite early exit the loop returns the midpoint of the bracket
it holds, the functor is indeed non-finite at that bracket's candidate, and
the status is left at `EXECUTING`. -/
theorem loop_nonfinite_result (cfg : Config) (f : ℚ → Option ℚ) :
    ∀ fuel used pts b,
      (loop cfg f fuel used pts b).exit = Exit.nonfinite →
      (loop cfg f fuel used pts b).status = return_t.EXECUTING ∧
      (loop cfg f fuel used pts b).value =
        some (loop cfg f fuel used pts b).finalB.m ∧
      f (candidate (loop cfg f fuel used pts b).finalB) = none := by
  intro fuel
  induction fuel with
  | zero =>
      intro used pts b h
      exact absurd h (by intro hh; exact Exit.noConfusion hh)
  | succ k ih =>
      intro used pts b
      rw [loop]
      split
      · split <;> (intro h; exact absurd h (by intro hh; exact Exit.noConfusion hh))
      · split
        · rename_i heq
          intro _
          exact ⟨rfl, rfl, heq⟩
        · split
          · intro h; exact absurd h (by intro hh; exact Exit.noConfusion hh)
          · intro h; exact absurd h (by intro hh; exact Exit.noConfusion hh)
          · intro h; exact absurd h (by intro hh; exact Exit.noConfusion hh)
          · rename_i b2 _
            split
            · intro h; exact absurd h (by intro hh; exact Exit.noConfusion hh)
            · exact ih (used + 1) _ b2

/-- Lifting `loop_status_executing_iff` through the initial evaluations:
after an invocation, the status is `EXECUTING` exactly on the two early-exit
paths (plus the unmodeled non-finite-initial-evaluation runs). -/
theorem callAux_status_executing_iff (cfg : Config) (f : ℚ → Option ℚ) :
    (callAux cfg f).status = return_t.EXECUTING ↔
      (callAux cfg f).exit = Exit.nonfinite ∨
      (callAux cfg f).exit = Exit.exactMid ∨
      (callAux cfg f).exit = Exit.unmodeled := by
  unfold callAux
  split
  · constructor
    · intro h
      rcases (loop_status_executing_iff cfg f _ _ _ _).mp h with h1 | h2
      · exact Or.inl h1
      · exact Or.inr (Or.inl h2)
    · intro h
      rcases h with h1 | h2 | h3
      · exact (loop_status_executing_iff cfg f _ _ _ _).mpr (Or.inl h1)
      · exact (loop_status_executing_iff cfg f _ _ _ _).mpr (Or.inr h2)
      · exact absurd h3 (loop_exit_ne_unmodeled cfg f _ _ _ _)
  · exact ⟨fun _ => Or.inr (Or.inr rfl), fun _ => rfl⟩

/-! The claim theorems. -/

/-- Claim C1: the claim states that `verbose` and `operator()` always return
the same value and leave the same status.  The code diverges: the convergence
test inside the convexity branch of `operator()` (source line 130) has a
function-tolerance disjunct that `verbose` (source line 215) lacks.  With
bounds `(0, 4)`, initial estimate `1`, `function_tolerance` set to `1`, and a
cost function through `(0, 1)`, `(1, 10)`, `(4, 11/10)`, the primary entry
point returns `m = 1` with status `SUCCESS` while the verbose entry point
returns the sentinel with status `NONCONVEX`. -/
theorem c1_call_verbose_divergence :
    (call (set_function_tolerance scenarioOpt 1) bumpCost).2 = some 1 ∧
    get_status (call (set_function_tolerance scenarioOpt 1) bumpCost).1 =
      return_t.SUCCESS ∧
    (verbose (set_function_tolerance scenarioOpt 1) bumpCost).2 = none ∧
    get_status (verbose (set_function_tolerance scenarioOpt 1) bumpCost).1 =
      return_t.NONCONVEX ∧
    (call (set_function_tolerance scenarioOpt 1) bumpCost).2 ≠
      (verbose (set_function_tolerance scenarioOpt 1) bumpCost).2 ∧
    get_status (call (set_function_tolerance scenarioOpt 1) bumpCost).1 ≠
      get_status (verbose (set_function_tolerance scenarioOpt 1) bumpCost).1 := by
  with_unfolding_all decide

/-- Claim C2, counterexample: with bounds `(0, 2)` (initial estimate the
default midpoint `1`) and the cost function that is `-1` at `1` and `0`
elsewhere, the first interpolated candidate is exactly `n = m = 1`, the call
returns through the `n == m` path (source lines 162-163), and the status
observable through `get_status` afterwards is `EXECUTING` - refuting the
claim that no return path leaves `EXECUTING` observable. -/
theorem c2_counterexample_executing_after_return :
    get_status (call (construct 0 2) dipCost).1 = return_t.EXECUTING ∧
    (call (construct 0 2) dipCost).2 = some 1 := by
  with_unfolding_all decide

/-- Claim C2, amended: after an invocation of `operator()`, the status
observable through `get_status` is `EXECUTING` exactly when the call returned
through one of the two early-exit paths that do not write the status field -
the non-finite candidate evaluation (source lines 144-145) and the exact
`n == m` match (source lines 162-163) - or through a run with a non-finite
initial evaluation, which is outside this model. -/
theorem c2_amended_executing_iff_early_exit (o : Optimizer) (f : ℚ → Option ℚ) :
    get_status (call o f).1 = return_t.EXECUTING ↔
      (callAux o.toConfig f).exit = Exit.nonfinite ∨
      (callAux o.toConfig f).exit = Exit.exactMid ∨
      (callAux o.toConfig f).exit = Exit.unmodeled :=
  callAux_status_executing_iff o.toConfig f

/-- Claim C2, witness for the amended theorem at a concrete input. -/
theorem c2_amended_executing_iff_early_exit_witness :
    get_status (call (construct 0 2) dipCost).1 = return_t.EXECUTING ↔
      (callAux (construct 0 2).toConfig dipCost).exit = Exit.nonfinite ∨
      (callAux (construct 0 2).toConfig dipCost).exit = Exit.exactMid ∨
      (callAux (construct 0 2).toConfig dipCost).exit = Exit.unmodeled :=
  c2_amended_executing_iff_early_exit (construct 0 2) dipCost

/-- Claim C3, counterexample: for `f(x) = (x-2)^2` with bounds `(0, 4)`,
initial estimate `1` and default tolerances, the status after the call is not
`SUCCESS`: the second interpolated candidate is exactly `n = m = 2`, so the
call returns through the `n == m` path, which leaves status `EXECUTING`. -/
theorem c3_counterexample_status_not_success :
    get_status (call scenarioOpt parabolaCost).1 ≠ return_t.SUCCESS := by
  with_unfolding_all decide

/-- Claim C3, amended: for `f(x) = (x-2)^2` with bounds `(0, 4)`, initial
estimate `1` and default tolerances, the call returns exactly `2` (within the
value tolerance `0.004` of the true minimiser `2.0`), but the status after
the call is `EXECUTING`, not `SUCCESS`: the run ends via the exact-match
`n == m` return, which does not write the status field. -/
theorem c3_amended_returns_two_executing :
    (call scenarioOpt parabolaCost).2 = some 2 ∧
    |(2 : ℚ) - 2| < 4/1000 ∧
    get_status (call scenarioOpt parabolaCost).1 = return_t.EXECUTING := by
  with_unfolding_all decide

/-- Claim C4, counterexample: with bounds `(0, 2)` (initial estimate `1`,
satisfying `l < m < u`) and `f(x) = x^2`, the first interpolated candidate is
exactly `n = l = 0` with `f(n) = 0 ≤ fm = 1`, so the new-best update sets
`m ← n = l` and the bracket at the start of the next loop iteration has
`l = m = 0` - refuting the claim that every bracket-update case preserves
`l < m < u`.  (Running with `max_iters = 1` makes that next-iteration bracket
the recorded final bracket.) -/
theorem c4_counterexample_degenerate_bracket :
    (set_max_iterations (construct 0 2) 1).init_lower <
      (set_max_iterations (construct 0 2) 1).init_mid ∧
    (set_max_iterations (construct 0 2) 1).init_mid <
      (set_max_iterations (construct 0 2) 1).init_upper ∧
    ¬ ((callAux (set_max_iterations (construct 0 2) 1).toConfig squareCost).finalB.l <
        (callAux (set_max_iterations (construct 0 2) 1).toConfig squareCost).finalB.m) := by
  with_unfolding_all decide

/-- Claim C4, amended: each of the five bracket-update cases preserves the
invariant `l < m < u`, provided the candidate `n` differs from both bracket
endpoints `l` and `u`; when `n = l` with `fn ≤ fm`, or `n = u` with bracket
widening enabled, the updated bracket degenerates (`m` collides with an
endpoint). -/
theorem c4_amended_update_preserves_bracket (eob : Bool) (b b2 : Bracket)
    (n fn : ℚ) (hlm : b.l < b.m) (hmu : b.m < b.u)
    (hnl : n ≠ b.l) (hnu : n ≠ b.u)
    (h : updateBracket eob b n fn = UpdateResult.cont b2) :
    b2.l < b2.m ∧ b2.m < b2.u := by
  unfold updateBracket at h
  by_cases h1 : n < b.l
  · rw [if_pos h1] at h
    by_cases he : eob = true
    · rw [if_pos he] at h
      exact absurd h (fun hh => UpdateResult.noConfusion hh)
    · rw [if_neg he] at h
      injection h with h'
      subst h'
      exact ⟨h1, hlm⟩
  · rw [if_neg h1] at h
    by_cases h2 : n < b.m
    · rw [if_pos h2] at h
      by_cases hf : fn > b.fm
      · rw [if_pos hf] at h
        injection h with h'
        subst h'
        exact ⟨h2, hmu⟩
      · rw [if_neg hf] at h
        injection h with h'
        subst h'
        exact ⟨lt_of_le_of_ne (not_lt.mp h1) (Ne.symm hnl), h2⟩
    · rw [if_neg h2] at h
      by_cases h3 : n = b.m
      · rw [if_pos h3] at h
        exact absurd h (fun hh => UpdateResult.noConfusion hh)
      · rw [if_neg h3] at h
        by_cases h4 : n < b.u
        · rw [if_pos h4] at h
          by_cases hf : fn > b.fm
          · rw [if_pos hf] at h
            injection h with h'
            subst h'
            exact ⟨hlm, lt_of_le_of_ne (not_lt.mp h2) (Ne.symm h3)⟩
          · rw [if_neg hf] at h
            injection h with h'
            subst h'
            exact ⟨lt_of_le_of_ne (not_lt.mp h2) (Ne.symm h3), h4⟩
        · rw [if_neg h4] at h
          by_cases he : eob = true
          · rw [if_pos he] at h
            exact absurd h (fun hh => UpdateResult.noConfusion hh)
          · rw [if_neg he] at h
            injection h with h'
            subst h'
            exact ⟨hmu, lt_of_le_of_ne (not_lt.mp h4) (Ne.symm hnu)⟩

/-- Claim C4, witness for the amended theorem at a concrete input: the update
of the bracket `(0, 1, 4)` with candidate `n = 2`, `fn = 0` preserves the
invariant. -/
theorem c4_amended_update_preserves_bracket_witness :
    (Bracket.mk 1 2 4 1 0 4).l < (Bracket.mk 1 2 4 1 0 4).m ∧
    (Bracket.mk 1 2 4 1 0 4).m < (Bracket.mk 1 2 4 1 0 4).u :=
  c4_amended_update_preserves_bracket true ⟨0, 1, 4, 4, 1, 4⟩ ⟨1, 2, 4, 1, 0, 4⟩
    2 0 (by with_unfolding_all decide) (by with_unfolding_all decide) (by with_unfolding_all decide) (by with_unfolding_all decide) (by with_unfolding_all decide)

/-- Claim C5: the candidate formula and the five-way bracket update of the
loop body, as described by the spec, coincide with the source-derived
definitions used by the loop. -/
theorem c5_interpolation_and_update_as_specified :
    candidateSpec = candidate ∧ updateBracketSpec = updateBracket := by
  constructor
  · rfl
  · funext eob b n fn
    simp only [updateBracket, updateBracketSpec]
    by_cases h1 : n < b.l
    · simp [h1]
    · by_cases h2 : n < b.m
      · simp [h1, h2, not_lt.mp h1]
      · by_cases h3 : n = b.m
        · simp [h1, h2, h3]
        · by_cases h4 : n < b.u
          · have h5 : b.m < n := lt_of_le_of_ne (not_lt.mp h2) (Ne.symm h3)
            simp [h1, h2, h3, h4, h5]
          · simp [h1, h2, h3, h4]

/-- Claim C6: whenever an invocation of `operator()` exits through the
non-finite candidate evaluation (source lines 144-145), the returned value is
the midpoint `m` of the bracket held at that moment - a finite value, not the
sentinel - the functor is indeed non-finite at that bracket's interpolated
candidate, and the status field is not written on this path, so it remains
`EXECUTING`. -/
theorem c6_nonfinite_returns_midpoint (cfg : Config) (f : ℚ → Option ℚ)
    (h : (callAux cfg f).exit = Exit.nonfinite) :
    (callAux cfg f).status = return_t.EXECUTING ∧
    (callAux cfg f).value = some (callAux cfg f).finalB.m ∧
    f (candidate (callAux cfg f).finalB) = none := by
  revert h
  unfold callAux
  split
  · exact fun h => loop_nonfinite_result cfg f _ _ _ _ h
  · exact fun h => absurd h (fun hh => Exit.noConfusion hh)

/-- Claim C6, witness at a concrete input: `f(x) = (x-2)^2` punctured to be
non-finite at `x = 2`, with bounds `(0, 4)` and initial estimate `1`; the
first interpolated candidate is exactly `2`, so the call returns the current
midpoint `1` with status `EXECUTING`. -/
theorem c6_nonfinite_returns_midpoint_witness :
    (callAux scenarioOpt.toConfig puncturedCost).status = return_t.EXECUTING ∧
    (callAux scenarioOpt.toConfig puncturedCost).value =
      some (callAux scenarioOpt.toConfig puncturedCost).finalB.m ∧
    puncturedCost (candidate (callAux scenarioOpt.toConfig puncturedCost).finalB) = none :=
  c6_nonfinite_returns_midpoint scenarioOpt.toConfig puncturedCost
    (by with_unfolding_all decide)

/-- Claim C7: for `f(x) = -(x-2)^2` with bounds `(0, 4)`, initial estimate
`1` and default tolerances, the midpoint sample lies above the chord, neither
tolerance-level escape fires, and the call returns the sentinel with status
`NONCONVEX`. -/
theorem c7_concave_scenario_nonconvex :
    (call scenarioOpt concaveCost).2 = none ∧
    get_status (call scenarioOpt concaveCost).1 = return_t.NONCONVEX := by
  with_unfolding_all decide

/-- Claim C8, counterexample: with `max_iterations = 1` and the concave cost
function `f(x) = -(x-2)^2` over `(0, 1, 4)`, the convexity check fires before
any candidate is interpolated, so zero interpolation steps are performed (the
functor is evaluated only at the three initial abscissas) and the call
returns with status `NONCONVEX` - neither a convergence nor `NONCONVERGING` -
refuting the claim that with `max_iterations = 1` exactly one interpolation
step is performed and the call either converges or returns `NONCONVERGING`. -/
theorem c8_counterexample_one_iteration_nonconvex :
    get_status (call (set_max_iterations scenarioOpt 1) concaveCost).1 =
      return_t.NONCONVEX ∧
    get_status (call (set_max_iterations scenarioOpt 1) concaveCost).1 ≠
      return_t.SUCCESS ∧
    get_status (call (set_max_iterations scenarioOpt 1) concaveCost).1 ≠
      return_t.NONCONVERGING ∧
    (callAux (set_max_iterations scenarioOpt 1).toConfig concaveCost).evals.length = 3 := by
  with_unfolding_all decide

/-- Claim C8, amended: every invocation of `operator()` executes at most
`max_iters` loop iterations; if the budget is exhausted without any return
condition firing, the call returns the sentinel with status `NONCONVERGING`;
and with `max_iterations = 1` at most one interpolation step is performed (at
most four functor evaluations in total), the call returning after at most one
loop iteration - either converging, failing with one of the failure statuses,
or returning `NONCONVERGING`. -/
theorem c8_amended_iteration_budget (cfg : Config) (f : ℚ → Option ℚ) :
    (callAux cfg f).itersUsed ≤ cfg.max_iters ∧
    ((callAux cfg f).exit = Exit.exhausted →
      (callAux cfg f).status = return_t.NONCONVERGING ∧
      (callAux cfg f).value = none) ∧
    (cfg.max_iters = 1 → (callAux cfg f).evals.length ≤ 4) := by
  unfold callAux
  split
  · refine ⟨?a, ?b, ?c⟩
    case a => exact le_trans (loop_itersUsed_le cfg f cfg.max_iters 0 _ _) (by omega)
    case b => exact loop_exhausted_result cfg f _ _ _ _
    case c =>
      rename_i fl fm fu heql heqm hequ
      intro h1
      have h2 := loop_evals_length cfg f cfg.max_iters 0
        [cfg.init_lower, cfg.init_mid, cfg.init_upper]
        ⟨cfg.init_lower, cfg.init_mid, cfg.init_upper, fl, fm, fu⟩
      simp only [List.length_cons, List.length_nil] at h2
      omega
  · refine ⟨Nat.zero_le _, ?b, ?c⟩
    case b => exact fun h => absurd h (fun hh => Exit.noConfusion hh)
    case c =>
      intro _
      dsimp only
      simp only [List.length_cons, List.length_nil]
      omega

/-- Claim C8, witness for the amended theorem at a concrete input:
`f(x) = (x-2)^2` over `(0, 1, 4)` with `max_iterations = 1` performs its one
allowed iteration, does not yet meet the width tolerance, and returns the
sentinel with status `NONCONVERGING`. -/
theorem c8_amended_iteration_budget_witness :
    (callAux (set_max_iterations scenarioOpt 1).toConfig parabolaCost).itersUsed ≤
      (set_max_iterations scenarioOpt 1).max_iters ∧
    (callAux (set_max_iterations scenarioOpt 1).toConfig parabolaCost).status =
      return_t.NONCONVERGING ∧
    (callAux (set_max_iterations scenarioOpt 1).toConfig parabolaCost).value = none ∧
    (callAux (set_max_iterations scenarioOpt 1).toConfig parabolaCost).evals.length ≤ 4 := by
  have h := c8_amended_iteration_budget (set_max_iterations scenarioOpt 1).toConfig
    parabolaCost
  have hex := h.2.1 (by with_unfolding_all decide)
  exact ⟨h.1, hex.1, hex.2, h.2.2 (by with_unfolding_all decide)⟩

/-- Claim C9: an invocation of `operator()` reads only the configuration and
writes only the status field, so the configuration (bounds, estimate,
tolerances, flag, iteration limit, message) is unchanged by an invocation,
and a second invocation on the same optimizer object with the same
deterministic cost function returns the identical value and leaves the
identical status. -/
theorem c9_invocation_pure_idempotent (o : Optimizer) (f : ℚ → Option ℚ) :
    (call o f).1.toConfig = o.toConfig ∧
    call (call o f).1 f = call o f :=
  ⟨rfl, rfl⟩

/-- Claim C9, witness at a concrete input. -/
theorem c9_invocation_pure_idempotent_witness :
    (call scenarioOpt parabolaCost).1.toConfig = scenarioOpt.toConfig ∧
    call (call scenarioOpt parabolaCost).1 parabolaCost =
      call scenarioOpt parabolaCost :=
  c9_invocation_pure_idempotent scenarioOpt parabolaCost

/-- Claim C10, helper form over a bare configuration with `max_iters = 0`:
the loop is never entered, the functor is evaluated exactly at the three
configured abscissas in order, and the call returns the sentinel with status
`NONCONVERGING`. -/
theorem callAux_zero_max_iters (cfg : Config) (f : ℚ → Option ℚ)
    (h0 : cfg.max_iters = 0)
    (hl : (f cfg.init_lower).isSome = true)
    (hm : (f cfg.init_mid).isSome = true)
    (hu : (f cfg.init_upper).isSome = true) :
    (callAux cfg f).value = none ∧
    (callAux cfg f).status = return_t.NONCONVERGING ∧
    (callAux cfg f).itersUsed = 0 ∧
    (callAux cfg f).evals = [cfg.init_lower, cfg.init_mid, cfg.init_upper] := by
  obtain ⟨vl, hvl⟩ := Option.isSome_iff_exists.mp hl
  obtain ⟨vm, hvm⟩ := Option.isSome_iff_exists.mp hm
  obtain ⟨vu, hvu⟩ := Option.isSome_iff_exists.mp hu
  unfold callAux
  rw [hvl, hvm, hvu, h0]
  dsimp only [loop]
  exact ⟨rfl, rfl, rfl, rfl⟩

/-- Claim C10: if the iteration limit is set to `0` via `set_max_iterations`,
an invocation of `operator()` evaluates the cost function exactly three
times - once each at the configured lower, mid and upper abscissas - never
enters the loop, returns the sentinel, and sets status `NONCONVERGING`.
(The three initial evaluations are assumed finite; the source leaves
non-finite initial evaluations to IEEE NaN propagation, outside this
model.) -/
theorem c10_zero_max_iterations (o : Optimizer) (f : ℚ → Option ℚ)
    (hl : (f o.init_lower).isSome = true)
    (hm : (f o.init_mid).isSome = true)
    (hu : (f o.init_upper).isSome = true) :
    (call (set_max_iterations o 0) f).2 = none ∧
    get_status (call (set_max_iterations o 0) f).1 = return_t.NONCONVERGING ∧
    (callAux (set_max_iterations o 0).toConfig f).itersUsed = 0 ∧
    (callAux (set_max_iterations o 0).toConfig f).evals =
      [o.init_lower, o.init_mid, o.init_upper] := by
  have h := callAux_zero_max_iters (set_max_iterations o 0).toConfig f rfl hl hm hu
  exact ⟨h.1, h.2.1, h.2.2.1, h.2.2.2⟩

/-- Claim C10, witness at a concrete input: the scenario optimizer with the
iteration limit set to `0` and `f(x) = (x-2)^2`. -/
theorem c10_zero_max_iterations_witness :
    (call (set_max_iterations scenarioOpt 0) parabolaCost).2 = none ∧
    get_status (call (set_max_iterations scenarioOpt 0) parabolaCost).1 =
      return_t.NONCONVERGING ∧
    (callAux (set_max_iterations scenarioOpt 0).toConfig parabolaCost).itersUsed = 0 ∧
    (callAux (set_max_iterations scenarioOpt 0).toConfig parabolaCost).evals =
      [scenarioOpt.init_lower, scenarioOpt.init_mid, scenarioOpt.init_upper] :=
  c10_zero_max_iterations scenarioOpt parabolaCost
    (by with_unfolding_all decide) (by with_unfolding_all decide)
    (by with_unfolding_all decide)

end QuadraticLineSearch
